import Mathlib

/-
Verification of the rollingWriter package (writer.go): a rolling file
writer with four write strategies (none / lock / async / buffer), a
rotation protocol (Reopen), background retention (AutoRemove) and
gzip compression of rotated files (CompressFile).

The Go source is shallowly embedded: file contents are lists of bytes
(modelled as Nat), the file system is an association list from paths to
contents, channels appear as explicit Option / list parameters, and
failure of OS calls is injected through Boolean parameters.
-/

set_option autoImplicit false

namespace RollingWriter

/-- Errors surfaced by the embedded operations; stands for the Go `error`
values produced in writer.go (`ErrInvalidArgument`, `ErrClosed`) and for
the OS-level failures injected into the model. -/
inductive GoError where
  | errInvalidArgument
  | errClosed
  | renameError
  | openError
  | seekError
  | copyError
  | removeError
  deriving DecidableEq, Repr

/-! ## Retention manager: `Writer.AutoRemove` (writer.go:186-200)

`AutoRemove` blocks on `w.fileCh`; on receipt it appends the path to
`w.rollingfilelist` and then, while `MaxRemain >= 0` and the list is
longer than `MaxRemain`, removes the head (oldest) file from disk and
drops it from the list. -/

/-- The inner eviction loop of `AutoRemove`:
`for w.cf.MaxRemain >= 0 && len(w.rollingfilelist) > w.cf.MaxRemain`
drop the head of the list (the oldest rotated file). -/
def evict (maxRemain : Int) : List String → List String
  | [] => []
  | f :: rest =>
    if 0 ≤ maxRemain ∧ maxRemain < (((f :: rest).length : Nat) : Int) then
      evict maxRemain rest
    else
      f :: rest

/-- One iteration of the `AutoRemove` loop body: receive `file` from
`w.fileCh`, append it to `w.rollingfilelist`, then run the eviction
loop. The returned list is the surviving `rollingfilelist`. -/
def notifyOne (maxRemain : Int) (l : List String) (file : String) : List String :=
  evict maxRemain (l ++ [file])

/-- Servicing a whole sequence of retention notifications through
`AutoRemove`, starting from the list `l`. -/
def processNotifications (maxRemain : Int) (files : List String) (l : List String) : List String :=
  files.foldl (notifyOne maxRemain) l

/-! ## File system model

Paths map to byte contents (bytes as `Nat`). An association list keeps
the model executable; lookup takes the first matching entry. -/

/-- The on-disk state: an association list from paths to file contents. -/
abbrev FileSystem := List (String × List Nat)

/-- Contents of the file at path `p`, when it exists. -/
def fsLookup : FileSystem → String → Option (List Nat)
  | [], _ => none
  | e :: rest, p => if e.1 = p then some e.2 else fsLookup rest p

/-- Delete the file at path `p` (no-op when absent). -/
def fsRemoveFile : FileSystem → String → FileSystem
  | [], _ => []
  | e :: rest, p => if e.1 = p then fsRemoveFile rest p else e :: fsRemoveFile rest p

/-- Create or overwrite the file at path `p` with contents `c`. -/
def fsSet (fs : FileSystem) (p : String) (c : List Nat) : FileSystem :=
  (p, c) :: fsRemoveFile fs p

/-- `os.Rename(src, dst)`: fails (returns `none`) when `src` does not
exist; otherwise the contents move to `dst`, replacing any file there. -/
def fsRename (fs : FileSystem) (src dst : String) : Option FileSystem :=
  match fsLookup fs src with
  | none => none
  | some c => some (fsSet (fsRemoveFile fs src) dst c)

/-! ## Base writer state and construction (writer.go:17-24, 58-156)

The `Writer` struct holds the open file handle (`file`), the fixed
absolute path (`absPath`), the rotation-trigger channel (`fire`), the
config (`cf`) and the retention-notify channel (`fileCh`). In the model
the handle is an identifier plus the contents reachable through it, and
`fileCh` is reduced to its one observable property: whether the channel
is non-nil (`NewWriterFromConfig` only ever creates it in mode
`"lock"`; in the other modes the zero value of the struct field, a nil
channel, is kept). -/

/-- The embedded `Writer` base state shared by all strategies. -/
structure WriterState where
  handleId : Nat
  fileContents : List Nat
  absPath : String
  fileChPresent : Bool
  compress : Bool
  maxRemain : Int
  deriving DecidableEq, Repr

/-- The fields of `Config` (config.go is not under src/; the fields are
those read by writer.go: `LogPath`, `FileName`, `WriterMode`,
`MaxRemain`, `Compress`, `BufferWriterThershould`). -/
structure ConfigM where
  logPath : String
  fileName : String
  writerMode : String
  maxRemain : Int
  compress : Bool
  bufferWriterThershould : Nat
  deriving DecidableEq, Repr

/-- Modelled from the spec: `LogFilePath` lives in the repository's
path/config file, which is not under src/; the spec describes the
construction surface as taking a log directory path and a file name,
which the constructor joins into the writer's fixed absolute path. -/
def LogFilePath (c : ConfigM) : String :=
  c.logPath ++ "/" ++ c.fileName ++ ".log"

/-- The writer value produced by `NewWriterFromConfig`, tagged with the
mode that built it and with which background loops were started
(`go wr.AutoRemove()` runs for modes none/lock/buffer; the async mode
starts the queue worker instead). -/
structure ConstructedWriter where
  mode : String
  w : WriterState
  autoRemoveStarted : Bool
  asyncWorkerStarted : Bool
  deriving DecidableEq, Repr

/-- `NewWriterFromConfig` (writer.go:58-156): validates LogPath/FileName,
opens the initial file, then dispatches on `WriterMode`. Only the
`"lock"` arm sets `fileCh: make(chan string)`; the `"none"`, `"async"`
and `"buffer"` arms leave `fileCh` as the zero value (nil channel).
`MkdirAll`, `OpenFile` and `NewManager` failures abort construction;
the model takes the successful path of those out-of-scope calls. -/
def NewWriterFromConfig (c : ConfigM) : Except GoError ConstructedWriter :=
  if c.logPath = "" ∨ c.fileName = "" then .error .errInvalidArgument
  else
    let base : WriterState :=
      { handleId := 0
        fileContents := []
        absPath := LogFilePath c
        fileChPresent := false
        compress := c.compress
        maxRemain := c.maxRemain }
    match c.writerMode with
    | "none" => .ok { mode := "none", w := base, autoRemoveStarted := true, asyncWorkerStarted := false }
    | "lock" => .ok { mode := "lock", w := { base with fileChPresent := true }, autoRemoveStarted := true, asyncWorkerStarted := false }
    | "async" => .ok { mode := "async", w := base, autoRemoveStarted := false, asyncWorkerStarted := true }
    | "buffer" => .ok { mode := "buffer", w := base, autoRemoveStarted := true, asyncWorkerStarted := false }
    | _ => .error .errInvalidArgument

/-! ## Rotation protocol: `Writer.Reopen` (writer.go:233-261)

`Reopen` renames the current file to the destination, opens a fresh
file at the fixed path, atomically swaps the handle, and launches the
completion goroutine. The synchronous part is modelled here; the
detached goroutine is modelled by `reopenCompletion` below. Failure of
the two OS calls is injected through `renameOk` / `openOk` (a rename
also fails when the source path does not exist). -/

/-- Result of the synchronous part of `Reopen`. -/
structure ReopenResult where
  w : WriterState
  fs : FileSystem
  err : Option GoError
  completionLaunched : Bool
  detachedHandle : Option Nat
  deriving DecidableEq, Repr

/-- The synchronous body of `Writer.Reopen(file)`: rename, open, swap.
`newId` is the identity of the freshly opened handle. -/
def Reopen (w : WriterState) (fs : FileSystem) (renameOk openOk : Bool)
    (newId : Nat) (dest : String) : ReopenResult :=
  if renameOk = false then
    { w := w, fs := fs, err := some .renameError, completionLaunched := false, detachedHandle := none }
  else
    match fsRename fs w.absPath dest with
    | none =>
      { w := w, fs := fs, err := some .renameError, completionLaunched := false, detachedHandle := none }
    | some fs1 =>
      if openOk = false then
        { w := w, fs := fs1, err := some .openError, completionLaunched := false, detachedHandle := none }
      else
        let fs2 := match fsLookup fs1 w.absPath with
          | none => fsSet fs1 w.absPath []
          | some _ => fs1
        { w := { w with handleId := newId, fileContents := (fsLookup fs2 w.absPath).getD [] },
          fs := fs2,
          err := none,
          completionLaunched := true,
          detachedHandle := some w.handleId }

/-! ## Compression: `Writer.CompressFile` (writer.go:203-222)

`CompressFile(oldfile, cmpname)` opens `cmpname`, gzip-encodes the
whole contents of `oldfile` (after `Seek(0,0)`) into it and finally
removes `cmpname + ".tmp"`. The gzip encoder itself is the Go standard
library; the model abstracts it as a function `enc` on byte lists.

The copy-failure branch of the source is

  if _, err := io.Copy(gw, oldfile); err != nil \x7b
      if errR := os.Remove(cmpname); err != nil \x7b return errR \x7d
      return err
  \x7d

Note the inner condition tests `err` (always non-nil in this branch),
not `errR`, so the branch always returns `errR` — the result of
`os.Remove` — and the trailing `return err` is dead code. The model
reproduces this faithfully. -/

/-- `Writer.CompressFile` over the byte-list encoder `enc`.
`oldContents` are the bytes readable through the detached old handle.
Returns the new file system and the error result. -/
def CompressFile (enc : List Nat → List Nat) (fs : FileSystem)
    (oldContents : List Nat) (cmpname : String)
    (openOk seekOk copyOk : Bool) : FileSystem × Option GoError :=
  if openOk = false then (fs, some .openError)
  else
    let fs1 := match fsLookup fs cmpname with
      | none => fsSet fs cmpname []
      | some _ => fs
    if seekOk = false then (fs1, some .seekError)
    else if copyOk = false then
      let removed := (fsLookup fs1 cmpname).isSome
      (fsRemoveFile fs1 cmpname, if removed then none else some .removeError)
    else
      let fs2 := fsSet fs1 cmpname ((fsLookup fs1 cmpname).getD [] ++ enc oldContents)
      let tmp := cmpname ++ ".tmp"
      (fsRemoveFile fs2 tmp, if (fsLookup fs2 tmp).isSome then none else some .removeError)

/-! ## Rotation completion goroutine (writer.go:245-259)

The goroutine launched by `Reopen`:

  defer oldfile.Close()
  if w.cf.Compress \x7b rename(file, file+".tmp"); CompressFile(oldfile, file) \x7d
  w.fileCh <- file

The deferred close runs only when the goroutine returns. When `fileCh`
is nil (every mode but `"lock"`), the final send blocks forever, so the
goroutine never returns: the old handle is never closed and no
notification is ever delivered. -/

/-- Observable outcome of the rotation completion goroutine. -/
structure CompletionOutcome where
  fs : FileSystem
  notified : Option String
  oldHandleClosed : Bool
  blockedForever : Bool
  deriving DecidableEq, Repr

/-- The completion goroutine of `Reopen`: optional compression, then the
retention notification, with the deferred close of the detached old
handle on return. `renameTmpOk`/`openOk`/`seekOk`/`copyOk` inject
OS-call failures inside the compression step. -/
def reopenCompletion (enc : List Nat → List Nat) (fs : FileSystem)
    (oldContents : List Nat) (fileChPresent compress : Bool)
    (renameTmpOk openOk seekOk copyOk : Bool) (dest : String) : CompletionOutcome :=
  if compress = true then
    if renameTmpOk = false then
      { fs := fs, notified := none, oldHandleClosed := true, blockedForever := false }
    else
      match fsRename fs dest (dest ++ ".tmp") with
      | none =>
        { fs := fs, notified := none, oldHandleClosed := true, blockedForever := false }
      | some fs1 =>
        match CompressFile enc fs1 oldContents dest openOk seekOk copyOk with
        | (fs2, some _) =>
          { fs := fs2, notified := none, oldHandleClosed := true, blockedForever := false }
        | (fs2, none) =>
          if fileChPresent = true then
            { fs := fs2, notified := some dest, oldHandleClosed := true, blockedForever := false }
          else
            { fs := fs2, notified := none, oldHandleClosed := false, blockedForever := true }
  else
    if fileChPresent = true then
      { fs := fs, notified := some dest, oldHandleClosed := true, blockedForever := false }
    else
      { fs := fs, notified := none, oldHandleClosed := false, blockedForever := true }

/-! ## Asynchronous strategy (writer.go:33-40, 51-55, 292-317, 369-399)

The pool `_asyncBufferPool` hands out byte slices; its `New` makes a
zeroed slice of length `BufferSize`, and `writer()`/`onClose` put back
the slices of the chunks they drained, so a slice obtained from
`Get()` has arbitrary stale contents and arbitrary length. The queue
is a list of chunks; the `closed` flag, the pending error channel and
the fire channel are explicit. -/

/-- `_asyncBufferPool.New` (writer.go:51-55): `make([]byte, BufferSize)`,
a zeroed slice of length `BufferSize` (the constant lives in the
repository's config file, so the length stays a parameter here). -/
def asyncPoolNewBuffer (bufferSize : Nat) : List Nat :=
  List.replicate bufferSize 0

/-- The chunk enqueued by the default fast path of
`AsynchronousWriter.Write` (writer.go:312):
`append(_asyncBufferPool.Get().([]byte)[0:], b...)[:len(b)]`.
`Get()[0:]` keeps the pooled slice's full length, `append` places `b`
after those stale bytes, and `[:len(b)]` keeps the first `len(b)`
bytes of the result. -/
def asyncFastPathChunk (poolBuf b : List Nat) : List Nat :=
  (poolBuf ++ b).take b.length

/-- The chunk-splitting loop of the rotation branch of
`AsynchronousWriter.Write` (writer.go:303-309): repeatedly `Get()` a
pooled buffer, `copy` into it (copying `min` of the two lengths) and
enqueue the copied prefix. `poolLens i` is the length of the `i`-th
slice obtained from the pool; the loop in the source terminates only
when those lengths are nonzero, which the fuel argument (`b.length`
suffices) makes explicit. -/
def rotationEnqueue (poolLens : Nat → Nat) : Nat → Nat → List Nat → List (List Nat)
  | _, _, [] => []
  | 0, _, _ => []
  | fuel + 1, i, b =>
    let n := min (poolLens i) b.length
    b.take n :: rotationEnqueue poolLens fuel (i + 1) (b.drop n)

/-- State of an `AsynchronousWriter`: the closed flag, the queue of
pending chunks, and the file reachable through the current handle. -/
structure AsyncState where
  closed : Bool
  queue : List (List Nat)
  fileContents : List Nat
  fileClosed : Bool
  deriving DecidableEq, Repr

/-- `AsynchronousWriter.Write` (writer.go:292-317). The `select` picks
among the ready channel cases; the model exposes each case's readiness
as a parameter (`pendingErr` for `errChan`, `fire` for the rotation
trigger) and takes the source's case order as priority. `poolBuf` is
the slice `Get()` returns on the fast path, `poolLens` the slice
lengths seen by the rotation branch, `reopenOk` whether the
synchronous `Reopen` succeeds. Returns the new state, the byte count
and the error. -/
def asyncWrite (poolBuf : List Nat) (poolLens : Nat → Nat)
    (pendingErr : Option GoError) (fire : Option String) (reopenOk : Bool)
    (s : AsyncState) (b : List Nat) : AsyncState × Nat × Option GoError :=
  if s.closed = false then
    match pendingErr with
    | some e => (s, 0, some e)
    | none =>
      match fire with
      | some _ =>
        if reopenOk = false then (s, 0, some .renameError)
        else
          ({ s with queue := s.queue ++ rotationEnqueue poolLens b.length 0 b }, b.length, none)
      | none =>
        ({ s with queue := s.queue ++ [asyncFastPathChunk poolBuf b] }, b.length, none)
  else (s, 0, some .errClosed)

/-- The drain loop `AsynchronousWriter.onClose` (writer.go:380-399):
non-blocking receive from the queue; write the chunk; on a write
failure try a non-blocking send to `errChan` and, when the channel is
not immediately receivable, put the buffer back and return at once,
abandoning the rest of the queue. `writeOk i` / `errReady i` are the
outcomes of the `i`-th write attempt and of the corresponding
non-blocking error send. Returns the chunks actually written (in
order) and the chunks left behind in the queue. -/
def onCloseDrain (writeOk errReady : Nat → Bool) : Nat → List (List Nat) → List (List Nat) × List (List Nat)
  | _, [] => ([], [])
  | i, b :: rest =>
    if writeOk i = true then
      let r := onCloseDrain writeOk errReady (i + 1) rest
      (b :: r.1, r.2)
    else if errReady i = true then
      onCloseDrain writeOk errReady (i + 1) rest
    else
      ([], rest)

/-- `AsynchronousWriter.Close` (writer.go:369-377): CAS the closed flag
0→1 (a second call fails and returns `ErrClosed`), signal the worker,
drain via `onClose`, then close the file handle. -/
def asyncClose (writeOk errReady : Nat → Bool) (s : AsyncState) : AsyncState × Option GoError :=
  if s.closed = true then (s, some .errClosed)
  else
    let r := onCloseDrain writeOk errReady 0 s.queue
    ({ closed := true,
       queue := r.2,
       fileContents := s.fileContents ++ r.1.flatten,
       fileClosed := true }, none)

/-! ## Buffered strategy (writer.go:43-48, 337-354, 402-405)

`BufferWriter.Write` appends to the pending buffer by building a new
slice and swapping the pointer; past the threshold it CAS-acquires the
`swaping` flag, swaps in a fresh buffer and writes the detached one to
the file. The claim's single-threaded scenario is modelled: the CAS
always succeeds and no rotation trigger is pending (the `select` takes
its default branch). -/

/-- State of a `BufferWriter`: bytes already written to the file and the
pending (unflushed) buffer. -/
structure BufState where
  fileContents : List Nat
  buf : List Nat
  deriving DecidableEq, Repr

/-- `BufferWriter.Write` (writer.go:337-354) for a single-threaded
caller with no pending rotation trigger: append `b` to the pending
buffer; if the new buffer is longer than the threshold, flush it to
the file and start a fresh buffer. Returns the state and `len(b)`. -/
def bufferWrite (threshold : Nat) (s : BufState) (b : List Nat) : BufState × Nat :=
  let newBuf := s.buf ++ b
  if threshold < newBuf.length then
    ({ fileContents := s.fileContents ++ newBuf, buf := [] }, b.length)
  else
    ({ s with buf := newBuf }, b.length)

/-- A whole single-threaded run: every byte sequence of `ws` passed to
`BufferWriter.Write` in order, starting from a fresh writer. -/
def bufferRun (threshold : Nat) (ws : List (List Nat)) : BufState :=
  ws.foldl (fun s b => (bufferWrite threshold s b).1) { fileContents := [], buf := [] }

/-- `BufferWriter.Close` (writer.go:402-405): write whatever remains in
the pending buffer, then close the handle. Returns the file's final
contents. -/
def bufferClose (s : BufState) : List Nat :=
  s.fileContents ++ s.buf

/-! ## Retention lemmas -/

theorem evict_of_length_le (k : Nat) (l : List String) (h : l.length ≤ k) :
    evict (k : Int) l = l := by
  cases l with
  | nil => rfl
  | cons f rest =>
    simp only [evict]
    rw [if_neg]
    rintro ⟨-, h2⟩
    simp only [List.length_cons] at h h2
    omega

theorem evict_step (k : Nat) (l : List String) (h : l.length ≤ k + 1) :
    evict (k : Int) l = if l.length ≤ k then l else l.tail := by
  cases l with
  | nil => simp [evict]
  | cons f rest =>
    by_cases hk : (f :: rest).length ≤ k
    · rw [evict_of_length_le k _ hk, if_pos hk]
    · rw [if_neg hk]
      simp only [evict]
      rw [if_pos]
      · have hr : rest.length ≤ k := by
          simp only [List.length_cons] at h
          omega
        rw [evict_of_length_le k _ hr]
        rfl
      · constructor
        · omega
        · simp only [List.length_cons] at hk ⊢
          push_cast
          omega

theorem processNotifications_drop (k : Nat) (files : List String) :
    ∀ acc : List String, acc.length ≤ k →
      processNotifications (k : Int) files acc =
        (acc ++ files).drop ((acc ++ files).length - k) := by
  induction files with
  | nil =>
    intro acc h
    simp only [processNotifications, List.foldl_nil, List.append_nil]
    rw [Nat.sub_eq_zero_of_le h, List.drop_zero]
  | cons f rest ih =>
    intro acc h
    have hstep : processNotifications (k : Int) (f :: rest) acc =
        processNotifications (k : Int) rest (notifyOne (k : Int) acc f) := rfl
    rw [hstep]
    have hlen : (acc ++ [f]).length ≤ k + 1 := by
      simp only [List.length_append, List.length_singleton]
      omega
    have hnot : notifyOne (k : Int) acc f = if (acc ++ [f]).length ≤ k then acc ++ [f] else (acc ++ [f]).tail := by
      unfold notifyOne
      exact evict_step k _ hlen
    by_cases hc : (acc ++ [f]).length ≤ k
    · rw [hnot, if_pos hc]
      rw [ih _ hc]
      simp [List.append_assoc]
    · rw [hnot, if_neg hc]
      have htl : (acc ++ [f]).tail.length ≤ k := by
        simp only [List.length_tail, List.length_append, List.length_singleton] at hc ⊢
        omega
      rw [ih _ htl]
      have hke : acc.length = k := by
        simp only [List.length_append, List.length_singleton] at hc
        omega
      have h1 : ((acc ++ [f]).tail ++ rest).length - k = rest.length := by
        simp only [List.length_append, List.length_tail, List.length_singleton]
        omega
      have h2 : (acc ++ f :: rest).length - k = rest.length + 1 := by
        simp only [List.length_append, List.length_cons]
        omega
      have htail : (acc ++ [f]).tail ++ rest = (acc ++ f :: rest).drop 1 := by
        cases acc <;> simp [List.append_assoc]
      rw [h1, h2, htail, List.drop_drop, Nat.add_comm]

/-! ## File-system lemmas -/

theorem fsLookup_fsSet_self (fs : FileSystem) (p : String) (c : List Nat) :
    fsLookup (fsSet fs p c) p = some c := by
  simp [fsSet, fsLookup]

theorem fsLookup_fsRemoveFile_self (fs : FileSystem) (p : String) :
    fsLookup (fsRemoveFile fs p) p = none := by
  induction fs with
  | nil => rfl
  | cons e rest ih =>
    by_cases h : e.1 = p
    · simp [fsRemoveFile, h, ih]
    · simp [fsRemoveFile, fsLookup, h, ih]

theorem fsLookup_fsRemoveFile_ne (fs : FileSystem) (p q : String) (h : ¬ q = p) :
    fsLookup (fsRemoveFile fs p) q = fsLookup fs q := by
  induction fs with
  | nil => rfl
  | cons e rest ih =>
    have hp : ¬ p = q := fun hpq => h hpq.symm
    by_cases he : e.1 = p
    · simp [fsRemoveFile, fsLookup, he, hp, ih]
    · by_cases heq : e.1 = q
      · simp [fsRemoveFile, fsLookup, he, heq, h]
      · simp [fsRemoveFile, fsLookup, he, heq, ih]

theorem fsLookup_fsSet_ne (fs : FileSystem) (p q : String) (c : List Nat) (h : ¬ q = p) :
    fsLookup (fsSet fs p c) q = fsLookup fs q := by
  have hp : ¬ p = q := fun hpq => h hpq.symm
  simp only [fsSet, fsLookup, hp, if_neg]
  exact fsLookup_fsRemoveFile_ne fs p q h

theorem self_ne_append_tmp (s : String) : ¬ (s = s ++ ".tmp") := by
  intro h
  have hl : s.length = (s ++ ".tmp").length := by rw [← h]
  rw [String.length_append] at hl
  have h4 : (".tmp" : String).length = 4 := rfl
  omega

theorem append_tmp_ne_self (s : String) : ¬ (s ++ ".tmp" = s) := by
  intro h
  exact self_ne_append_tmp s h.symm

/-! ## Claim C1 -/

/-- C1 counterexample. The claim says that with `MaxRemain = 2`, after 4
rotation notifications exactly `min(4, 2+1) = 3` rotated files remain.
Servicing 4 notifications through the `AutoRemove` loop leaves only 2
files (`len > MaxRemain` evicts down to `MaxRemain`), so the claim
fails at this input. -/
theorem autoremove_maxremain_two_counterexample :
    processNotifications (2 : Int) ["app.log.1", "app.log.2", "app.log.3", "app.log.4"] []
      = ["app.log.3", "app.log.4"] ∧
    ¬ ((processNotifications (2 : Int) ["app.log.1", "app.log.2", "app.log.3", "app.log.4"] []).length
        = min 4 (2 + 1)) := by
  refine ⟨rfl, ?_⟩
  have h2 : (processNotifications (2 : Int) ["app.log.1", "app.log.2", "app.log.3", "app.log.4"] []).length = 2 := rfl
  rw [h2]
  decide

/-- C1 (amended): for every writer with `MaxRemain = k ≥ 0`, after `N`
retention notifications have been processed by `AutoRemove`, exactly
`min(N, k)` rotated files remain, and they are the `k` most recently
rotated ones (the final suffix of the notification sequence). In write
mode `"none"` the retention channel is nil, so notifications are never
processed at all and every rotated file remains on disk. -/
theorem autoremove_keeps_k_most_recent (k : Nat) (files : List String) :
    processNotifications (k : Int) files [] = files.drop (files.length - k) ∧
    (processNotifications (k : Int) files []).length = min files.length k := by
  have h := processNotifications_drop k files [] (by simp)
  simp only [List.nil_append] at h
  refine ⟨h, ?_⟩
  rw [h, List.length_drop]
  omega

/-! ## Claim C3 -/

/-- C3: if the initial rename of the current file to `destinationPath`
fails, `Reopen` returns that error and the writer's state is
unchanged: the same still-open handle stays in place, the file system
is untouched, no handle swap happens and no background completion
goroutine is launched. -/
theorem reopen_rename_failure_preserves_state (w : WriterState) (fs : FileSystem)
    (openOk : Bool) (newId : Nat) (dest : String) :
    Reopen w fs false openOk newId dest =
      { w := w, fs := fs, err := some .renameError,
        completionLaunched := false, detachedHandle := none } := by
  rfl

/-! ## Claim C4 -/

/-- C4: the default fast path of `AsynchronousWriter.Write` builds its
chunk as `append(Get()[0:], b...)[:len(b)]`. Because the pooled slice
keeps its full length, the enqueued chunk consists of the first
`len(b)` *stale pool bytes*, not of `b`: with a fresh zeroed pool
buffer (length 4 here) and `b = [1,2,3]`, the enqueued chunk is
`[0,0,0]`, while `Write` still reports `(len(b), nil)`. This
contradicts the claimed (and clearly intended, compare the correct
`copy` in the rotation branch) behaviour of copying `b`. -/
theorem async_fast_path_enqueues_stale_bytes :
    asyncWrite (asyncPoolNewBuffer 4) (fun _ => 4) none none true
        { closed := false, queue := [], fileContents := [], fileClosed := false } [1, 2, 3]
      = ({ closed := false, queue := [[0, 0, 0]], fileContents := [], fileClosed := false }, 3, none) ∧
    ¬ ([0, 0, 0] = [1, 2, 3]) := by
  exact ⟨rfl, by decide⟩

/-! ## Claim C7 -/

/-- C7: in `CompressFile`, when the gzip encode step (`io.Copy`) fails,
the partially-written output at `cmpname` is indeed removed, but the
inner condition `if errR := os.Remove(cmpname); err != nil` tests
`err` instead of `errR`, so the function returns the result of
`os.Remove` and the trailing `return err` is dead code: with the
remove succeeding, `CompressFile` returns nil and the encode failure
is never propagated (so `Reopen`'s completion path logs nothing). -/
theorem compressfile_swallows_encode_error :
    CompressFile id [("app.log.1.tmp", [104, 105])] [104, 105] "app.log.1" true true false
      = ([("app.log.1.tmp", [104, 105])], none) := by
  rfl

/-! ## Claim C9 -/

/-- C9: for a single-threaded caller with no rotation triggers, after
`Close` the file's final contents equal the concatenation, in call
order, of all byte sequences ever passed to `BufferWriter.Write`:
every byte is flushed exactly once, by a threshold-triggered flush or
by `Close`. -/
theorem bufferclose_concatenates_all_writes (threshold : Nat) (ws : List (List Nat)) :
    bufferClose (bufferRun threshold ws) = ws.flatten := by
  suffices h : ∀ s : BufState,
      bufferClose (ws.foldl (fun s b => (bufferWrite threshold s b).1) s)
        = s.fileContents ++ s.buf ++ ws.flatten by
    simpa [bufferRun] using h { fileContents := [], buf := [] }
  induction ws with
  | nil => intro s; simp [bufferClose]
  | cons b rest ih =>
    intro s
    simp only [List.foldl_cons, List.flatten_cons]
    rw [ih]
    by_cases hb : threshold < s.buf.length + b.length <;>
      simp [bufferWrite, List.length_append, hb, List.append_assoc]

/-! ## Completion-path computation lemmas (shared by C2 and C8) -/

theorem fsRename_of_lookup (fs : FileSystem) (src dst : String) (c : List Nat)
    (h : fsLookup fs src = some c) :
    fsRename fs src dst = some (fsSet (fsRemoveFile fs src) dst c) := by
  simp [fsRename, h]

theorem CompressFile_success_eq (enc : List Nat → List Nat) (fs : FileSystem)
    (oldContents c : List Nat) (cmp : String)
    (hnone : fsLookup fs cmp = none) (htmp : fsLookup fs (cmp ++ ".tmp") = some c) :
    CompressFile enc fs oldContents cmp true true true =
      (fsRemoveFile (fsSet (fsSet fs cmp []) cmp (enc oldContents)) (cmp ++ ".tmp"), none) := by
  have h2 : fsLookup (fsSet (fsSet fs cmp []) cmp (enc oldContents)) (cmp ++ ".tmp") = some c := by
    rw [fsLookup_fsSet_ne _ _ _ _ (append_tmp_ne_self cmp),
        fsLookup_fsSet_ne _ _ _ _ (append_tmp_ne_self cmp), htmp]
  simp [CompressFile, hnone, fsLookup_fsSet_self, h2]

theorem reopenCompletion_compress_ok (enc : List Nat → List Nat) (fs : FileSystem)
    (oldContents c : List Nat) (chPresent : Bool) (dest : String)
    (hdest : fsLookup fs dest = some c) :
    (reopenCompletion enc fs oldContents chPresent true true true true true dest).fs =
      fsRemoveFile (fsSet (fsSet (fsSet (fsRemoveFile fs dest) (dest ++ ".tmp") c) dest [])
        dest (enc oldContents)) (dest ++ ".tmp") ∧
    (reopenCompletion enc fs oldContents chPresent true true true true true dest).notified
      = (if chPresent = true then some dest else none) ∧
    (reopenCompletion enc fs oldContents chPresent true true true true true dest).oldHandleClosed
      = chPresent := by
  have hren := fsRename_of_lookup fs dest (dest ++ ".tmp") c hdest
  have hnone : fsLookup (fsSet (fsRemoveFile fs dest) (dest ++ ".tmp") c) dest = none := by
    rw [fsLookup_fsSet_ne _ _ _ _ (self_ne_append_tmp dest), fsLookup_fsRemoveFile_self]
  have htmp : fsLookup (fsSet (fsRemoveFile fs dest) (dest ++ ".tmp") c) (dest ++ ".tmp") = some c :=
    fsLookup_fsSet_self _ _ _
  have hCF := CompressFile_success_eq enc _ oldContents c dest hnone htmp
  cases chPresent <;> simp [reopenCompletion, hren, hCF]

/-! ## Claim C2 -/

/-- C2 counterexample: `NewWriterFromConfig` in mode `"none"` leaves
`fileCh` nil, and then the completion goroutine of a successful
`Reopen` blocks forever on `w.fileCh <- file` (send on a nil channel):
the deferred close of the detached old handle never runs and no path
is ever pushed — contradicting the claim for this construction mode. -/
theorem completion_mode_none_counterexample :
    NewWriterFromConfig { logPath := "/logs", fileName := "app", writerMode := "none", maxRemain := 2, compress := false, bufferWriterThershould := 8192 }
      = .ok { mode := "none",
              w := { handleId := 0, fileContents := [], absPath := "/logs/app.log",
                     fileChPresent := false, compress := false, maxRemain := 2 },
              autoRemoveStarted := true, asyncWorkerStarted := false } ∧
    reopenCompletion id [("/logs/app.log.1", [104, 105])] [104, 105] false false true true true true "/logs/app.log.1"
      = { fs := [("/logs/app.log.1", [104, 105])], notified := none,
          oldHandleClosed := false, blockedForever := true } := by
  exact ⟨rfl, rfl⟩

/-- C2 (amended): for a writer whose retention channel is non-nil —
which `NewWriterFromConfig` produces exactly in mode `"lock"` — every
successful `Reopen` whose completion path does not fail inside the
compression step closes the detached old handle and pushes
`destinationPath` onto the retention channel. In the other three
construction modes the channel is nil and the completion goroutine
blocks forever, closing and pushing nothing. -/
theorem completion_lock_mode_closes_and_notifies (enc : List Nat → List Nat)
    (fs : FileSystem) (oldContents c : List Nat) (compress : Bool) (dest : String)
    (hdest : fsLookup fs dest = some c) :
    (reopenCompletion enc fs oldContents true compress true true true true dest).notified = some dest ∧
    (reopenCompletion enc fs oldContents true compress true true true true dest).oldHandleClosed = true ∧
    (∀ cfg cw, NewWriterFromConfig cfg = .ok cw → cfg.writerMode = "lock" →
      cw.w.fileChPresent = true) := by
  refine ⟨?_, ?_, ?_⟩
  · cases compress with
    | false => simp [reopenCompletion]
    | true => exact (reopenCompletion_compress_ok enc fs oldContents c true dest hdest).2.1
  · cases compress with
    | false => simp [reopenCompletion]
    | true => exact (reopenCompletion_compress_ok enc fs oldContents c true dest hdest).2.2
  · intro cfg cw hok hlock
    unfold NewWriterFromConfig at hok
    split at hok
    · cases hok
    · rw [hlock] at hok
      simp at hok
      rw [← hok]

/-- Witness for the amended C2 at a concrete input. -/
theorem completion_lock_mode_closes_and_notifies_witness :
    (reopenCompletion id [("app.log.1", [104])] [104] true false true true true true "app.log.1").notified = some "app.log.1" ∧
    (reopenCompletion id [("app.log.1", [104])] [104] true false true true true true "app.log.1").oldHandleClosed = true ∧
    (∀ cfg cw, NewWriterFromConfig cfg = .ok cw → cfg.writerMode = "lock" →
      cw.w.fileChPresent = true) :=
  completion_lock_mode_closes_and_notifies id [("app.log.1", [104])] [104] [104] false "app.log.1" rfl

/-! ## Claim C5 -/

theorem onCloseDrain_all_writes_ok (writeOk errReady : Nat → Bool)
    (hok : ∀ j, writeOk j = true) (q : List (List Nat)) :
    ∀ i : Nat, onCloseDrain writeOk errReady i q = (q, []) := by
  induction q with
  | nil => intro i; rfl
  | cons b rest ih => intro i; simp [onCloseDrain, hok i, ih]

/-- C5 counterexample: two chunks are enqueued before a successful
`Close`; the first drain write fails and the error channel is not
immediately receivable, so `onClose` returns at once, the second chunk
is abandoned in the queue, and the handle is closed with nothing
written — yet `Close` reports success. The claim's "every chunk ...
for every outcome of the individual file-write operations" fails. -/
theorem asyncclose_drops_enqueued_chunks_counterexample :
    asyncClose (fun _ => false) (fun _ => false)
        { closed := false, queue := [[1], [2]], fileContents := [], fileClosed := false }
      = ({ closed := true, queue := [[2]], fileContents := [], fileClosed := true }, none) ∧
    ¬ (([] : List Nat) = [1, 2]) := by
  exact ⟨rfl, by decide⟩

/-- C5 (amended): when every file write during the drain succeeds,
`Close` writes every chunk enqueued before it, in order, to the file
before closing the handle; a failing drain write loses that chunk, and
additionally abandons the rest of the queue when the error channel is
not immediately receivable. -/
theorem asyncclose_drains_all_when_writes_succeed (writeOk errReady : Nat → Bool)
    (s : AsyncState) (hclosed : s.closed = false) (hok : ∀ i, writeOk i = true) :
    (asyncClose writeOk errReady s).1.fileContents = s.fileContents ++ s.queue.flatten ∧
    (asyncClose writeOk errReady s).1.fileClosed = true ∧
    (asyncClose writeOk errReady s).1.queue = [] ∧
    (asyncClose writeOk errReady s).2 = none := by
  have hd := onCloseDrain_all_writes_ok writeOk errReady hok s.queue 0
  simp [asyncClose, hclosed, hd]

/-- Witness for the amended C5 at a concrete input. -/
theorem asyncclose_drains_all_when_writes_succeed_witness :
    (asyncClose (fun _ => true) (fun _ => false)
        { closed := false, queue := [[1], [2]], fileContents := [9], fileClosed := false }).1.fileContents
      = [9] ++ ([[1], [2]] : List (List Nat)).flatten ∧
    (asyncClose (fun _ => true) (fun _ => false)
        { closed := false, queue := [[1], [2]], fileContents := [9], fileClosed := false }).1.fileClosed = true ∧
    (asyncClose (fun _ => true) (fun _ => false)
        { closed := false, queue := [[1], [2]], fileContents := [9], fileClosed := false }).1.queue = [] ∧
    (asyncClose (fun _ => true) (fun _ => false)
        { closed := false, queue := [[1], [2]], fileContents := [9], fileClosed := false }).2 = none :=
  asyncclose_drains_all_when_writes_succeed (fun _ => true) (fun _ => false)
    { closed := false, queue := [[1], [2]], fileContents := [9], fileClosed := false }
    rfl (fun _ => rfl)

/-! ## Claim C6 -/

/-- C6: after the first successful `Close` (the CAS on `closed` goes
0→1), every later `Write(b)` returns `(0, ErrClosed)` with the state —
in particular the queue — untouched, and every later `Close` returns
`ErrClosed` without re-draining or re-closing anything. -/
theorem async_closed_sink_after_close (poolBuf : List Nat) (poolLens : Nat → Nat)
    (pendingErr : Option GoError) (fire : Option String) (reopenOk : Bool)
    (writeOk errReady writeOk2 errReady2 : Nat → Bool) (s : AsyncState) (b : List Nat)
    (hclosed : s.closed = false) :
    (asyncClose writeOk errReady s).1.closed = true ∧
    asyncWrite poolBuf poolLens pendingErr fire reopenOk (asyncClose writeOk errReady s).1 b
      = ((asyncClose writeOk errReady s).1, 0, some .errClosed) ∧
    asyncClose writeOk2 errReady2 (asyncClose writeOk errReady s).1
      = ((asyncClose writeOk errReady s).1, some .errClosed) := by
  have h1 : (asyncClose writeOk errReady s).1.closed = true := by
    simp [asyncClose, hclosed]
  refine ⟨h1, ?_, ?_⟩
  · simp [asyncWrite, h1]
  · set s1 := (asyncClose writeOk errReady s).1 with hs1
    simp [asyncClose, h1]

/-- Witness for C6 at a concrete input. -/
theorem async_closed_sink_after_close_witness :
    (asyncClose (fun _ => true) (fun _ => false)
        { closed := false, queue := [], fileContents := [], fileClosed := false }).1.closed = true ∧
    asyncWrite [0, 0] (fun _ => 2) none none true
        (asyncClose (fun _ => true) (fun _ => false)
          { closed := false, queue := [], fileContents := [], fileClosed := false }).1 [7]
      = ((asyncClose (fun _ => true) (fun _ => false)
          { closed := false, queue := [], fileContents := [], fileClosed := false }).1, 0, some .errClosed) ∧
    asyncClose (fun _ => true) (fun _ => false)
        (asyncClose (fun _ => true) (fun _ => false)
          { closed := false, queue := [], fileContents := [], fileClosed := false }).1
      = ((asyncClose (fun _ => true) (fun _ => false)
          { closed := false, queue := [], fileContents := [], fileClosed := false }).1, some .errClosed) :=
  async_closed_sink_after_close [0, 0] (fun _ => 2) none none true
    (fun _ => true) (fun _ => false) (fun _ => true) (fun _ => false)
    { closed := false, queue := [], fileContents := [], fileClosed := false } [7] rfl

/-! ## Claim C8 -/

/-- C8: for a rotation with compression enabled whose completion path
runs without error, decoding the compressed artifact left at
`destinationPath` yields exactly the bytes the rotated-out file held
at rotation time, and the intermediate `.tmp` raw file is removed
(`dec`/`enc` model the gzip pair through their library round-trip
contract). This holds whichever construction mode launched it. -/
theorem compress_roundtrip_removes_tmp (enc dec : List Nat → List Nat)
    (hroundtrip : ∀ bs, dec (enc bs) = bs) (fs : FileSystem) (c : List Nat)
    (chPresent : Bool) (dest : String) (hdest : fsLookup fs dest = some c) :
    (fsLookup (reopenCompletion enc fs c chPresent true true true true true dest).fs dest).map dec
      = some c ∧
    fsLookup (reopenCompletion enc fs c chPresent true true true true true dest).fs (dest ++ ".tmp")
      = none := by
  have hfs := (reopenCompletion_compress_ok enc fs c c chPresent dest hdest).1
  rw [hfs]
  constructor
  · rw [fsLookup_fsRemoveFile_ne _ _ _ (self_ne_append_tmp dest), fsLookup_fsSet_self]
    simp [hroundtrip]
  · rw [fsLookup_fsRemoveFile_self]

/-- Witness for C8 at a concrete input (identity encoder/decoder). -/
theorem compress_roundtrip_removes_tmp_witness :
    (fsLookup (reopenCompletion id [("app.log.1", [104, 105])] [104, 105] true true true true true true "app.log.1").fs "app.log.1").map id
      = some [104, 105] ∧
    fsLookup (reopenCompletion id [("app.log.1", [104, 105])] [104, 105] true true true true true true "app.log.1").fs ("app.log.1" ++ ".tmp")
      = none :=
  compress_roundtrip_removes_tmp id id (fun _ => rfl) [("app.log.1", [104, 105])]
    [104, 105] true "app.log.1" rfl

/-! ## Claim C10 -/

/-- C10: among the four construction modes of `NewWriterFromConfig`,
exactly `"lock"` produces a writer with a non-nil retention-notify
channel (`fileCh`); modes `"none"`, `"async"` and `"buffer"` leave the
field at its nil zero value, and `Reopen` (the only operation touching
writer state) never assigns the field afterwards. -/
theorem filech_nonnil_iff_lock_mode (c : ConfigM) (cw : ConstructedWriter)
    (h : NewWriterFromConfig c = .ok cw) :
    (cw.w.fileChPresent = true ↔ c.writerMode = "lock") ∧
    (∀ (w : WriterState) (fs : FileSystem) (rOk oOk : Bool) (nid : Nat) (dest : String),
      (Reopen w fs rOk oOk nid dest).w.fileChPresent = w.fileChPresent) := by
  constructor
  · unfold NewWriterFromConfig at h
    split at h
    · cases h
    · split at h
      · cases h; simp [*]
      · cases h; simp [*]
      · cases h; simp [*]
      · cases h; simp [*]
      · cases h
  · intro w fs rOk oOk nid dest
    unfold Reopen
    split
    · rfl
    · split
      · rfl
      · split
        · rfl
        · rfl

/-- Witness for C10 at a concrete input (mode "none"). -/
theorem filech_nonnil_iff_lock_mode_witness :
    (({ mode := "none",
        w := { handleId := 0, fileContents := [], absPath := "/logs/app.log",
               fileChPresent := false, compress := false, maxRemain := 2 },
        autoRemoveStarted := true, asyncWorkerStarted := false } : ConstructedWriter).w.fileChPresent = true
      ↔ ({ logPath := "/logs", fileName := "app", writerMode := "none", maxRemain := 2, compress := false, bufferWriterThershould := 8192 } : ConfigM).writerMode = "lock") ∧
    (∀ (w : WriterState) (fs : FileSystem) (rOk oOk : Bool) (nid : Nat) (dest : String),
      (Reopen w fs rOk oOk nid dest).w.fileChPresent = w.fileChPresent) :=
  filech_nonnil_iff_lock_mode
    { logPath := "/logs", fileName := "app", writerMode := "none", maxRemain := 2, compress := false, bufferWriterThershould := 8192 }
    { mode := "none",
      w := { handleId := 0, fileContents := [], absPath := "/logs/app.log",
             fileChPresent := false, compress := false, maxRemain := 2 },
      autoRemoveStarted := true, asyncWorkerStarted := false }
    rfl

end RollingWriter
